import Mathlib

/-!
Verification development for the `chat-app` streaming client
(`src/static/js/main.js`, plus the older client revision kept in
`src/unnamed/part_002`).

The client consumes server-sent events (frames of an event-type tag and a
raw string payload) and folds them into the page state: the raw answer
buffer `currentAnswer`, the children of the answer area (`answerContent`),
the children of the reference area (`referenceCards`) and the progress bar.

`main.js` contains two client revisions separated by a document marker; we
call the richer one (lines 427-1034, the `tool_result`-based protocol) the
current client and embed it in the root namespace.  The earlier revision in
`main.js` (lines 1-425) is embedded as `Rev1` where it differs, and the
oldest revision (`src/unnamed/part_002`) as `Legacy`.  The functions
`updateAnswer` and `showError` are textually identical in all three
revisions, so a single embedding of each is shared.

JavaScript values parsed from JSON payloads are modelled by `JSValue`;
`JSON.parse` is modelled by the executable `parseJson` below (strict JSON:
the grammar of values, objects with last-occurrence-wins duplicate keys as
in JS engines, arrays, strings with the standard escapes, and numbers as
rationals).  DOM nodes are modelled by explicit block lists; `textContent`
and template-literal string conversions are modelled by the `js*` helpers.
-/

namespace ChatApp

/-- A JavaScript value that `JSON.parse` can produce (no `undefined`, no
functions, no `NaN`: JSON cannot denote them).  Numbers are exact
rationals. -/
inductive JSValue where
  | null : JSValue
  | boolean (b : Bool) : JSValue
  | number (q : ℚ) : JSValue
  | string (s : String) : JSValue
  | array (xs : List JSValue) : JSValue
  | object (fields : List (String × JSValue)) : JSValue

/-- First-match association-list lookup.  `parseJson` keeps at most one
entry per key (JS objects: duplicate JSON keys keep the first insertion
position with the last value), so first-match is exact. -/
def lookupField : List (String × JSValue) → String → Option JSValue
  | [], _ => none
  | (k, v) :: fs, key => if k = key then some v else lookupField fs key

/-- JS property access `data.key` on a parsed value: defined on objects,
`undefined` (`none`) on every other base the dispatchers can pass (numbers,
strings, booleans and arrays have none of the accessed properties; `null`
bases, which would throw, are handled explicitly at each call site that can
receive them). -/
def getField : JSValue → String → Option JSValue
  | JSValue.object fs, k => lookupField fs k
  | _, _ => none

/-- `data.key` when the code compares it with a string literal via
`===` / `switch`: only a string value matches. -/
def getStr (d : JSValue) (k : String) : Option String :=
  match getField d k with
  | some (JSValue.string s) => some s
  | _ => none

/-- JS truthiness of a parsed value. -/
def jsTruthy : JSValue → Bool
  | JSValue.null => false
  | JSValue.boolean b => b
  | JSValue.number q => q ≠ 0
  | JSValue.string s => s ≠ ""
  | JSValue.array _ => true
  | JSValue.object _ => true

/-- Truthiness of a possibly-absent property (`undefined` is falsy). -/
def jsTruthyOpt : Option JSValue → Bool
  | none => false
  | some v => jsTruthy v

/-- Rendering of a number by string conversion.  Integers are exact; the
non-integer fallback prints `num/den` where JS would print a decimal
expansion — no claim observes a non-integer rendering. -/
def numToStr (q : ℚ) : String :=
  if q.den = 1 then toString q.num
  else toString q.num ++ "/" ++ toString q.den

mutual
/-- JS `ToString` of a parsed value, as used by template literals and
string concatenation: `String(null) = "null"`, arrays join their elements
with commas (`null` elements become empty), objects print
`[object Object]`. -/
def jsDisplay : JSValue → String
  | JSValue.null => "null"
  | JSValue.boolean b => if b then "true" else "false"
  | JSValue.number q => numToStr q
  | JSValue.string s => s
  | JSValue.array xs => jsDisplayElems xs
  | JSValue.object _ => "[object Object]"

/-- `Array.prototype.join(",")` element rendering. -/
def jsDisplayElems : List JSValue → String
  | [] => ""
  | [JSValue.null] => ""
  | [x] => jsDisplay x
  | JSValue.null :: xs => "," ++ jsDisplayElems xs
  | x :: xs => jsDisplay x ++ "," ++ jsDisplayElems xs
end

/-- Template-literal interpolation of a possibly-absent property:
`undefined` renders as the string `"undefined"`. -/
def jsTemplate : Option JSValue → String
  | none => "undefined"
  | some v => jsDisplay v

/-- Assignment `node.textContent = data.field`: `undefined` and `null`
become the empty string (WebIDL nullable-DOMString conversion), everything
else is converted to a string. -/
def jsTextContent : Option JSValue → String
  | none => ""
  | some JSValue.null => ""
  | some v => jsDisplay v

/-- `Array.prototype.join(sep)` (used for `authors.join(', ')`):
`null` elements render empty. -/
def jsJoin (sep : String) : List JSValue → String
  | [] => ""
  | [JSValue.null] => ""
  | [x] => jsDisplay x
  | JSValue.null :: xs => sep ++ jsJoin sep xs
  | x :: xs => jsDisplay x ++ sep ++ jsJoin sep xs

/-- An ASCII whitespace character (JS `.trim()` also strips some exotic
Unicode whitespace; no payload in this development contains any). -/
def isWsChar (c : Char) : Bool :=
  c = ' ' || c = '\t' || c = '\n' || c = '\r' || c = '\x0b' || c = '\x0c'

/-- JS `String.prototype.trim()`. -/
def jsTrim (s : String) : String :=
  String.mk (((s.toList.dropWhile isWsChar).reverse.dropWhile isWsChar).reverse)

/-- JS `Math.round` (round half toward positive infinity), computed on the
exact rational representation: `⌊x + 1/2⌋ = (2 num + den) fdiv (2 den)`. -/
def jsRound (x : ℚ) : ℤ := Int.fdiv (2 * x.num + (x.den : ℤ)) (2 * (x.den : ℤ))

/-- Multiplication of a parsed number by 100 (`data.progress * 100`),
computed on the representation so that it evaluates. -/
def ratMul100 (q : ℚ) : ℚ := mkRat (100 * q.num) q.den

/-! ### `JSON.parse`

A strict executable JSON parser over the character list, with fuel bounding
the recursion depth (`parseJson` supplies ample fuel for its input). -/

/-- Skip JSON whitespace. -/
def skipWs : List Char → List Char
  | [] => []
  | c :: cs => if c = ' ' ∨ c = '\t' ∨ c = '\n' ∨ c = '\r' then skipWs cs else c :: cs

/-- Hexadecimal digit value (code points 0-9, a-f, A-F). -/
def hexVal (c : Char) : Option Nat :=
  let n := c.toNat
  if 48 ≤ n && n ≤ 57 then some (n - 48)
  else if 97 ≤ n && n ≤ 102 then some (n - 87)
  else if 65 ≤ n && n ≤ 70 then some (n - 55)
  else none

/-- Body of a JSON string literal after the opening quote: characters up to
the closing quote, with the standard escapes. -/
def pStringChars : List Char → Option (List Char × List Char)
  | [] => none
  | '"' :: rest => some ([], rest)
  | '\\' :: 'n' :: rest => (pStringChars rest).map (fun p => ('\n' :: p.1, p.2))
  | '\\' :: 't' :: rest => (pStringChars rest).map (fun p => ('\t' :: p.1, p.2))
  | '\\' :: 'r' :: rest => (pStringChars rest).map (fun p => ('\r' :: p.1, p.2))
  | '\\' :: 'b' :: rest => (pStringChars rest).map (fun p => ('\x08' :: p.1, p.2))
  | '\\' :: 'f' :: rest => (pStringChars rest).map (fun p => ('\x0c' :: p.1, p.2))
  | '\\' :: '"' :: rest => (pStringChars rest).map (fun p => ('"' :: p.1, p.2))
  | '\\' :: '\\' :: rest => (pStringChars rest).map (fun p => ('\\' :: p.1, p.2))
  | '\\' :: '/' :: rest => (pStringChars rest).map (fun p => ('/' :: p.1, p.2))
  | '\\' :: 'u' :: h1 :: h2 :: h3 :: h4 :: rest =>
    match hexVal h1, hexVal h2, hexVal h3, hexVal h4 with
    | some a, some b, some c, some d =>
      (pStringChars rest).map (fun p => (Char.ofNat (((a * 16 + b) * 16 + c) * 16 + d) :: p.1, p.2))
    | _, _, _, _ => none
  | '\\' :: _ => none
  | c :: rest => (pStringChars rest).map (fun p => (c :: p.1, p.2))

/-- Take a run of decimal digits. -/
def takeDigits (cs : List Char) : List Char × List Char :=
  match cs with
  | c :: tail =>
    if c.isDigit then
      match takeDigits tail with
      | (ds, rest) => (c :: ds, rest)
    else ([], cs)
  | [] => ([], [])

/-- Numeric value of a digit run. -/
def digitsVal (ds : List Char) : Nat :=
  ds.foldl (fun a c => a * 10 + (c.toNat - '0'.toNat)) 0

/-- A JSON number: optional minus, integer part, optional fraction,
optional exponent (leading zeros are tolerated where strict JSON rejects
them; no payload in this development exercises that corner). -/
def pNumber (cs : List Char) : Option (ℚ × List Char) :=
  let signAndRest : Bool × List Char :=
    match cs with
    | '-' :: r => (true, r)
    | r => (false, r)
  let ip := takeDigits signAndRest.2
  if ip.1 = [] then none
  else
    let fracAndRest : Option (List Char) × List Char :=
      match ip.2 with
      | '.' :: r =>
        let fd := takeDigits r
        (some fd.1, fd.2)
      | r => (none, r)
    match fracAndRest.1 with
    | some [] => none
    | _ =>
      let expAndRest : Option (Bool × List Char) × List Char :=
        match fracAndRest.2 with
        | 'e' :: r =>
          let se : Bool × List Char :=
            match r with
            | '+' :: r2 => (false, r2)
            | '-' :: r2 => (true, r2)
            | r2 => (false, r2)
          let ed := takeDigits se.2
          (some (se.1, ed.1), ed.2)
        | 'E' :: r =>
          let se : Bool × List Char :=
            match r with
            | '+' :: r2 => (false, r2)
            | '-' :: r2 => (true, r2)
            | r2 => (false, r2)
          let ed := takeDigits se.2
          (some (se.1, ed.1), ed.2)
        | r => (none, r)
      match expAndRest.1 with
      | some (_, []) => none
      | _ =>
        let fracDigits : List Char :=
          match fracAndRest.1 with
          | some fd => fd
          | none => []
        let mantissa : ℤ := (digitsVal (ip.1 ++ fracDigits) : ℤ)
        let signedMantissa : ℤ := if signAndRest.1 then -mantissa else mantissa
        let fracLen : Nat := fracDigits.length
        let q : ℚ :=
          match expAndRest.1 with
          | some (eneg, eds) =>
            if eneg then mkRat signedMantissa (10 ^ (fracLen + digitsVal eds))
            else mkRat (signedMantissa * (10 : ℤ) ^ digitsVal eds) (10 ^ fracLen)
          | none => mkRat signedMantissa (10 ^ fracLen)
        some (q, expAndRest.2)

/-- Record a parsed object member: duplicate keys keep the first insertion
position with the later value (JS object semantics); `fs` are the members
parsed after this one, already combined. -/
def addFieldFront (k : String) (v : JSValue) (fs : List (String × JSValue)) :
    List (String × JSValue) :=
  match lookupField fs k with
  | some _ => fs
  | none => (k, v) :: fs

mutual
/-- One JSON value; fuel decreases on every recursive step. -/
def pValue : Nat → List Char → Option (JSValue × List Char)
  | 0, _ => none
  | Nat.succ fuel, cs =>
    match skipWs cs with
    | 'n' :: 'u' :: 'l' :: 'l' :: rest => some (JSValue.null, rest)
    | 't' :: 'r' :: 'u' :: 'e' :: rest => some (JSValue.boolean true, rest)
    | 'f' :: 'a' :: 'l' :: 's' :: 'e' :: rest => some (JSValue.boolean false, rest)
    | '"' :: rest =>
      match pStringChars rest with
      | some (chars, r) => some (JSValue.string (String.mk chars), r)
      | none => none
    | '[' :: rest =>
      (match skipWs rest with
       | ']' :: r => some (JSValue.array [], r)
       | cs2 =>
         match pElems fuel cs2 with
         | some (xs, r) => some (JSValue.array xs, r)
         | none => none)
    | '\x7b' :: rest =>
      (match skipWs rest with
       | '\x7d' :: r => some (JSValue.object [], r)
       | cs2 =>
         match pFields fuel cs2 with
         | some (fs, r) => some (JSValue.object fs, r)
         | none => none)
    | cs1 =>
      match pNumber cs1 with
      | some (q, r) => some (JSValue.number q, r)
      | none => none

/-- Array elements after `[`, first element not yet parsed. -/
def pElems : Nat → List Char → Option (List JSValue × List Char)
  | 0, _ => none
  | Nat.succ fuel, cs =>
    match pValue fuel cs with
    | none => none
    | some (v, rest) =>
      match skipWs rest with
      | ',' :: r =>
        (match pElems fuel r with
         | some (xs, r2) => some (v :: xs, r2)
         | none => none)
      | ']' :: r => some ([v], r)
      | _ => none

/-- Object members after the opening brace, first member not yet parsed. -/
def pFields : Nat → List Char → Option (List (String × JSValue) × List Char)
  | 0, _ => none
  | Nat.succ fuel, cs =>
    match skipWs cs with
    | '"' :: rest =>
      (match pStringChars rest with
       | none => none
       | some (kcs, r1) =>
         match skipWs r1 with
         | ':' :: r2 =>
           (match pValue fuel r2 with
            | none => none
            | some (v, r3) =>
              match skipWs r3 with
              | ',' :: r4 =>
                (match pFields fuel r4 with
                 | some (fs, r5) => some (addFieldFront (String.mk kcs) v fs, r5)
                 | none => none)
              | '\x7d' :: r4 => some ([(String.mk kcs, v)], r4)
              | _ => none)
         | _ => none)
    | _ => none
end

/-- `JSON.parse`: parse one value and require only whitespace to follow;
`none` models a thrown `SyntaxError`. -/
def parseJson (s : String) : Option JSValue :=
  match pValue (4 * s.length + 8) s.toList with
  | some (v, rest) => if (skipWs rest).isEmpty then some v else none
  | none => none

/-! ### The DOM state of the client

`answerContent` children are a sequence of blocks: user messages, at most
transient `.loading` indicators, `.ai-message` blocks (each wrapping one
`.markdown-content` element), `.error` blocks and the initial
`.placeholder`.  An `.ai-message` block records the raw markdown source
last passed to the showdown converter (`converter.makeHtml` itself is an
external library; the block stores its input).  `referenceCards` children
are `.loading` indicators, `.no-results` / `.error` notices, reference
cards (each with one anchor unless it is an answer-box card of the legacy
layout) and `.tool-result-card` blocks. -/

/-- One child of `answerContent`. -/
inductive Block where
  | userMsg (text : String) : Block
  | loading (text : String) : Block
  | aiMessage (markdownSource : String) : Block
  | errorBlock (text : String) (details : Option String) : Block
  | placeholder : Block
deriving DecidableEq, Repr

/-- One reference card (`.reference-card`): `anchorHref` is the `href` of
its title anchor (`none` for the legacy answer-box card, which renders a
span instead). -/
structure Card where
  anchorHref : Option String
  title : String
  authorsLine : Option String
  paperContent : String
  dateLine : Option String
deriving DecidableEq, Repr

/-- One child of `referenceCards`. -/
inductive RefBlock where
  | loading (text : String) : RefBlock
  | noResults (text : String) : RefBlock
  | errBlock (text : String) (details : String) : RefBlock
  | card (c : Card) : RefBlock
  | toolCard (title : String) (body : String) (message : Option String) : RefBlock
deriving DecidableEq, Repr

/-- The mutable page state owned by one `ChatApp` instance: the raw answer
buffer `currentAnswer`, the two block lists, the `visible` class of the
references section, and the progress bar (`progressPct` is the percent
written to the bar width and text; `none` records a non-numeric width). -/
structure AppState where
  currentAnswer : String
  answerBlocks : List Block
  refBlocks : List RefBlock
  refVisible : Bool
  progressVisible : Bool
  progressPct : Option ℤ
deriving DecidableEq, Repr

/-- One `EventSource` connection: all the dispatch logic observes of it is
whether `readyState === EventSource.CLOSED`. -/
structure Conn where
  closed : Bool
deriving DecidableEq, Repr

/-- The outgoing `/api/chat` request parameters. -/
structure OutRequest where
  message : String
  requestId : String
  selectedTools : List String
deriving DecidableEq, Repr

/-- `eventSource.readyState` at the time `onerror` fires. -/
inductive ReadyState where
  | connecting : ReadyState
  | openRS : ReadyState
  | closedRS : ReadyState
deriving DecidableEq, Repr

/-- `answerContent.querySelector('.loading') !== null`. -/
def hasLoading : List Block → Bool
  | [] => false
  | Block.loading _ :: _ => true
  | _ :: bs => hasLoading bs

/-- `querySelector('.loading').remove()`: drop the first loading block. -/
def removeFirstLoading : List Block → List Block
  | [] => []
  | Block.loading _ :: bs => bs
  | b :: bs => b :: removeFirstLoading bs

/-- `querySelector('.loading').textContent = txt` on the first loading
block (no effect when none exists). -/
def setFirstLoadingText : List Block → String → List Block
  | [], _ => []
  | Block.loading _ :: bs, txt => Block.loading txt :: bs
  | b :: bs, txt => b :: setFirstLoadingText bs txt

/-- `answerContent.querySelector('.placeholder') !== null`. -/
def hasPlaceholder : List Block → Bool
  | [] => false
  | Block.placeholder :: _ => true
  | _ :: bs => hasPlaceholder bs

/-- `querySelector('.ai-message:last-child')` then
`markdownDiv.innerHTML = makeHtml(txt)`: rewrite the last block when it is
an `.ai-message` (only a last child matches the selector). -/
def setLastAiMessage : List Block → String → List Block
  | [], _ => []
  | [Block.aiMessage _], txt => [Block.aiMessage txt]
  | [b], _ => [b]
  | b :: bs, txt => b :: setLastAiMessage bs txt

/-- `aiMessageDiv.replaceWith(errorDiv)` when the last child is an
`.ai-message`, otherwise `appendChild(errorDiv)`. -/
def placeErrorBlock : List Block → Block → List Block
  | [], e => [e]
  | [Block.aiMessage _], e => [e]
  | [b], e => [b, e]
  | b :: bs, e => b :: placeErrorBlock bs e

/-- Number of `.error` blocks in the answer area (observer used by the
theorems, not by the client). -/
def errorCount : List Block → Nat
  | [] => 0
  | Block.errorBlock _ _ :: bs => errorCount bs + 1
  | _ :: bs => errorCount bs

/-- `referenceCards.querySelector('.loading') !== null`. -/
def refHasLoading : List RefBlock → Bool
  | [] => false
  | RefBlock.loading _ :: _ => true
  | _ :: bs => refHasLoading bs

/-- Drop the first loading block of the reference area. -/
def refRemoveFirstLoading : List RefBlock → List RefBlock
  | [] => []
  | RefBlock.loading _ :: bs => bs
  | b :: bs => b :: refRemoveFirstLoading bs

/-- Set the text of the first loading block of the reference area (no
effect when none exists). -/
def refSetFirstLoadingText : List RefBlock → String → List RefBlock
  | [], _ => []
  | RefBlock.loading _ :: bs, txt => RefBlock.loading txt :: bs
  | b :: bs, txt => b :: refSetFirstLoadingText bs txt

/-- `referenceCards.querySelector('.tool-result-card') !== null`. -/
def refHasToolCard : List RefBlock → Bool
  | [] => false
  | RefBlock.toolCard _ _ _ :: _ => true
  | _ :: bs => refHasToolCard bs

/-- `card.querySelector('a')?.href === data.result.link`: only reference
cards have an anchor, and the strict comparison succeeds only on an equal
string value. -/
def cardMatches (b : RefBlock) (link : JSValue) : Bool :=
  match b, link with
  | RefBlock.card c, JSValue.string l => c.anchorHref = some l
  | _, _ => false

/-- `Array.from(children).find(...) !== undefined` for the link match. -/
def hasCardFor (bs : List RefBlock) (link : JSValue) : Bool :=
  bs.any (fun b => cardMatches b link)

/-- Rewrite the `.paper-content` text of the first card matching the link. -/
def updateFirstCard : List RefBlock → JSValue → String → List RefBlock
  | [], _, _ => []
  | b :: bs, link, txt =>
    if cardMatches b link then
      (match b with
       | RefBlock.card c => RefBlock.card { c with paperContent := txt }
       | other => other) :: bs
    else b :: updateFirstCard bs link txt

/-! ### Assorted JS conversions used by the handlers -/

/-- `Number(string)` on a trimmed string: empty converts to `0`, a decimal
literal to its value, anything else to `NaN` (`none`).  (Hex and infinity
literals are not modelled; no payload in the repository produces them.) -/
def parseNumericString (s : String) : Option ℚ :=
  let t := jsTrim s
  if t = "" then some 0
  else
    match pNumber t.toList with
    | some (q, rest) => if rest = [] then some q else none
    | none => none

/-- JS `ToNumber` of a parsed JSON value (`none` is `NaN`): `null` and the
empty array convert to `0`, booleans to `0`/`1`, a one-element array to the
number of its element (via its join), other arrays and objects to `NaN`. -/
def jsToNumber : JSValue → Option ℚ
  | JSValue.null => some 0
  | JSValue.boolean b => some (if b then mkRat 1 1 else 0)
  | JSValue.number q => some q
  | JSValue.string s => parseNumericString s
  | JSValue.array [] => some 0
  | JSValue.array [x] => jsToNumber x
  | JSValue.array (_ :: _ :: _) => none
  | JSValue.object _ => none

/-- Escaping of a string for `JSON.stringify` (quote, backslash and the
common control characters; exotic control characters are left as-is, no
claim observes them). -/
def escChar (c : Char) : List Char :=
  if c = '"' then '\\' :: ['"']
  else if c = '\\' then '\\' :: ['\\']
  else if c = '\n' then '\\' :: ['n']
  else if c = '\t' then '\\' :: ['t']
  else if c = '\r' then '\\' :: ['r']
  else [c]

/-- String body escaping for `JSON.stringify`. -/
def stringifyEscape (s : String) : String :=
  String.mk (s.toList.map escChar).flatten

/-- An indentation run for `JSON.stringify(v, null, 2)`. -/
def spaces (n : Nat) : String := String.mk (List.replicate n ' ')

mutual
/-- `JSON.stringify(v, null, 2)` at the given current indentation.  Number
formatting falls back to `numToStr`. -/
def jsonStringify (ind : Nat) : JSValue → String
  | JSValue.null => "null"
  | JSValue.boolean b => if b then "true" else "false"
  | JSValue.number q => numToStr q
  | JSValue.string s => "\"" ++ stringifyEscape s ++ "\""
  | JSValue.array [] => "[]"
  | JSValue.array (x :: xs) =>
    "[\n" ++ stringifyItems (ind + 2) x xs ++ "\n" ++ spaces ind ++ "]"
  | JSValue.object [] => "\x7b\x7d"
  | JSValue.object ((k, v) :: fs) =>
    "\x7b\n" ++ stringifyMembers (ind + 2) k v fs ++ "\n" ++ spaces ind ++ "\x7d"
termination_by v => sizeOf v
decreasing_by all_goals (simp_wf; try omega)

/-- Array items of `jsonStringify`, one per line. -/
def stringifyItems (ind : Nat) (x : JSValue) (xs : List JSValue) : String :=
  match xs with
  | [] => spaces ind ++ jsonStringify ind x
  | y :: ys => spaces ind ++ jsonStringify ind x ++ ",\n" ++ stringifyItems ind y ys
termination_by sizeOf x + sizeOf xs
decreasing_by all_goals (simp_wf; try omega)

/-- Object members of `jsonStringify`, one per line. -/
def stringifyMembers (ind : Nat) (k : String) (v : JSValue)
    (fs : List (String × JSValue)) : String :=
  match fs with
  | [] => spaces ind ++ "\"" ++ stringifyEscape k ++ "\": " ++ jsonStringify ind v
  | (k2, v2) :: fs2 =>
    spaces ind ++ "\"" ++ stringifyEscape k ++ "\": " ++ jsonStringify ind v ++ ",\n" ++
      stringifyMembers ind k2 v2 fs2
termination_by sizeOf v + sizeOf fs
decreasing_by all_goals (simp_wf; try omega)
end

/-- JS `typeof v === 'object'` for parsed JSON values (`null` included). -/
def typeofIsObject : JSValue → Bool
  | JSValue.null => true
  | JSValue.array _ => true
  | JSValue.object _ => true
  | _ => false

/-- `Object.entries`: members of an object, index/element pairs of an
array, a thrown `TypeError` (`none`) on `null`; primitives have no own
enumerable properties (unreachable at the call site, which is guarded by
`typeof item === 'object'`). -/
def jsEntries : JSValue → Option (List (String × JSValue))
  | JSValue.object fs => some fs
  | JSValue.array xs => some (xs.enum.map (fun p => (toString p.1, p.2)))
  | JSValue.null => none
  | _ => some []

/-- The dispatcher guard `!data || typeof data !== 'object'` inverted: a
parsed payload is accepted exactly when it is an object or an array. -/
def jsObjectLike : JSValue → Bool
  | JSValue.object _ => true
  | JSValue.array _ => true
  | _ => false

/-! ### The current client (`main.js`, second revision)

`updateAnswer` and `showError` below are textually identical in all three
client revisions and are shared by the `Rev1` and `Legacy` embeddings. -/

/-- The `truncateContent` utility: falsy content gives the empty string,
content longer than `maxLength` is cut and suffixed with an ellipsis
(source default `maxLength = 300`; the `tool_result` path passes 1000). -/
def truncateContent (content : String) (maxLength : Nat) : String :=
  if content = "" then ""
  else if content.length > maxLength then (content.take maxLength) ++ "..." else content

/-- Argument fed to `truncateContent`: a falsy property is the empty
string, a truthy one its string conversion. -/
def jsStrOrEmpty (o : Option JSValue) : String :=
  if jsTruthyOpt o then jsTemplate o else ""

/-- `Array.isArray(result.authors) ? result.authors.join(', ') :
(result.authors || '未知作者')`. -/
def authorsText (o : Option JSValue) : String :=
  match o with
  | some (JSValue.array xs) => jsJoin ", " xs
  | o => if jsTruthyOpt o then jsTemplate o else "未知作者"

/-- `showError(data)`: remove the loading indicator, build an `.error`
block from `data.error || '发生错误'` and the optional `data.details`, and
replace the trailing `.ai-message` with it (append when there is none).
Identical in all three client revisions. -/
def showError (d : JSValue) (st : AppState) : AppState :=
  let blocks1 := removeFirstLoading st.answerBlocks
  let errText :=
    if jsTruthyOpt (getField d "error") then jsTemplate (getField d "error") else "发生错误"
  let details :=
    if jsTruthyOpt (getField d "details") then some (jsTemplate (getField d "details")) else none
  { st with answerBlocks := placeErrorBlock blocks1 (Block.errorBlock errText details) }

/-- `updateAnswer(data)`: an explicit `status: 'error'` payload is routed
to `showError`; otherwise a present loading indicator is removed and a
fresh empty `.ai-message` appended (the first-answer transition), and a
truthy `data.content` is appended to `currentAnswer` and re-rendered into
the trailing `.ai-message` when it is the last child.  Identical in all
three client revisions. -/
def updateAnswer (d : JSValue) (st : AppState) : AppState :=
  if getStr d "status" = some "error" then showError d st
  else
    let blocks1 :=
      if hasLoading st.answerBlocks then
        removeFirstLoading st.answerBlocks ++ [Block.aiMessage ""]
      else st.answerBlocks
    let c := getField d "content"
    if jsTruthyOpt c then
      let newText := st.currentAnswer ++ jsTemplate c
      { st with currentAnswer := newText, answerBlocks := setLastAiMessage blocks1 newText }
    else { st with answerBlocks := blocks1 }

/-- `updateStatus(data)` of the current client: a `.loading` status element
is created in the answer area when absent, then the `data.status` switch
runs (an unknown status leaves only that creation side effect).  Note that
`fetch_progress` guards the progress-bar write with the truthiness of
`data.progress` — a `0` (or absent) progress leaves the previous bar — and
applies no clamping to `Math.round(data.progress * 100)`.  The `completed`
branch removes the status element and nothing else: it does not close the
connection. -/
def updateStatus (d : JSValue) (st : AppState) : AppState :=
  let blocks0 :=
    if hasLoading st.answerBlocks then st.answerBlocks
    else st.answerBlocks ++ [Block.loading ""]
  match getStr d "status" with
  | some "searching" =>
    { st with refBlocks := [RefBlock.loading "搜索中..."], refVisible := true,
              answerBlocks := setFirstLoadingText blocks0 "搜索中...",
              progressVisible := false }
  | some "fetch_start" =>
    { st with progressVisible := true, progressPct := some 0,
              refBlocks := refSetFirstLoadingText st.refBlocks (jsTextContent (getField d "message")),
              answerBlocks := setFirstLoadingText blocks0 (jsTextContent (getField d "message")) }
  | some "fetch_progress" =>
    let pct : Option ℤ :=
      match getField d "progress" with
      | some v =>
        if jsTruthy v then
          match jsToNumber v with
          | some q => some (jsRound (ratMul100 q))
          | none => none
        else st.progressPct
      | none => st.progressPct
    { st with progressPct := pct,
              refBlocks := refSetFirstLoadingText st.refBlocks (jsTextContent (getField d "message")),
              answerBlocks := setFirstLoadingText blocks0 (jsTextContent (getField d "message")) }
  | some "fetch_completed" =>
    { st with refBlocks := refRemoveFirstLoading st.refBlocks,
              answerBlocks := setFirstLoadingText blocks0 "正在整理信息..." }
  | some "generating" =>
    { st with refBlocks := refRemoveFirstLoading st.refBlocks,
              answerBlocks := setFirstLoadingText blocks0 "生成回答中..." }
  | some "completed" =>
    { st with answerBlocks := removeFirstLoading blocks0 }
  | _ => { st with answerBlocks := blocks0 }

/-- A non-arXiv reference card as rendered by `updateSearchResults` and
`handleSearchResults` (the two templates are identical). -/
def mkWebCard (r : JSValue) : RefBlock :=
  RefBlock.card
    { anchorHref := some (jsTemplate (getField r "link")),
      title :=
        if jsTruthyOpt (getField r "title") then jsTemplate (getField r "title") else "无标题",
      authorsLine := none,
      paperContent :=
        (let t := truncateContent (jsStrOrEmpty (getField r "content")) 300
         if t = "" then "无内容" else t),
      dateLine :=
        if jsTruthyOpt (getField r "date") then
          some ("发布时间：" ++ jsTemplate (getField r "date"))
        else none }

/-- A reference card of `updateSearchResults`: the `result.isArxiv` branch
renders authors, `abstract || content`, and a submitted date; the other
branch is `mkWebCard`. -/
def mkResultCard (r : JSValue) : RefBlock :=
  if jsTruthyOpt (getField r "isArxiv") then
    RefBlock.card
      { anchorHref := some (jsTemplate (getField r "link")),
        title :=
          if jsTruthyOpt (getField r "title") then jsTemplate (getField r "title") else "无标题",
        authorsLine := some (authorsText (getField r "authors")),
        paperContent :=
          (let src :=
             if jsTruthyOpt (getField r "abstract") then getField r "abstract"
             else getField r "content"
           let t := truncateContent (jsStrOrEmpty src) 300
           if t = "" then "无内容" else t),
        dateLine :=
          some ("发布时间：" ++
            (if jsTruthyOpt (getField r "submitted") then jsTemplate (getField r "submitted")
             else "未知日期")) }
  else mkWebCard r

/-- The `.error` notice of the `updateSearchResults` error branch. -/
def mkSearchErrBlock (d : JSValue) : RefBlock :=
  RefBlock.errBlock ("搜索出错：" ++ jsTemplate (getField d "error"))
    (if jsTruthyOpt (getField d "details") then jsTemplate (getField d "details") else "")

/-- `updateSearchResults(data)` of the current client: clear the reference
area, then either render the error notice, the no-results notice, or one
card per result in order (the staggered reveal timers preserve index
order and are presentation only). -/
def updateSearchResults (d : JSValue) (st : AppState) : AppState :=
  if getStr d "status" = some "error" then
    { st with refBlocks := [mkSearchErrBlock d], refVisible := false }
  else
    let results : List JSValue :=
      match getField d "results" with
      | some (JSValue.array xs) => xs
      | _ => []
    if results.isEmpty then
      { st with refBlocks := [RefBlock.noResults "暂无相关搜索结果"], refVisible := false }
    else
      { st with refVisible := true, refBlocks := results.map mkResultCard }

/-- `handleSearchResults(results)` (the `search_web` tool): clear, then
no-results notice unless a non-empty array, else one web card per result. -/
def handleSearchResults (results : JSValue) (st : AppState) : AppState :=
  match results with
  | JSValue.array (x :: xs) =>
    { st with refVisible := true, refBlocks := (x :: xs).map mkWebCard }
  | _ => { st with refBlocks := [RefBlock.noResults "暂无相关搜索结果"], refVisible := false }

/-- An arXiv paper card of `handleArxivResults` (authors, truncated
`content`, submitted date). -/
def mkArxivCard (r : JSValue) : RefBlock :=
  RefBlock.card
    { anchorHref := some (jsTemplate (getField r "link")),
      title :=
        if jsTruthyOpt (getField r "title") then jsTemplate (getField r "title") else "无标题",
      authorsLine := some (authorsText (getField r "authors")),
      paperContent :=
        (let t := truncateContent (jsStrOrEmpty (getField r "content")) 300
         if t = "" then "无内容" else t),
      dateLine :=
        some ("发布时间：" ++
          (if jsTruthyOpt (getField r "submitted") then jsTemplate (getField r "submitted")
           else "未知日期")) }

/-- `handleArxivResults(papers)` (the `search_arxiv` tool). -/
def handleArxivResults (papers : JSValue) (st : AppState) : AppState :=
  match papers with
  | JSValue.array (x :: xs) =>
    { st with refVisible := true, refBlocks := (x :: xs).map mkArxivCard }
  | _ => { st with refBlocks := [RefBlock.noResults "暂无相关论文"], refVisible := false }

/-- One `${key}: ${value}` line of the generic tool-result rendering for a
plain object (object-typed values are pretty-printed). -/
def entryLine (k : String) (v : JSValue) : String :=
  if typeofIsObject v then k ++ ":\n" ++ jsonStringify 0 v
  else k ++ ": " ++ jsDisplay v

/-- One mapped item of the generic tool-result rendering for an array:
object-typed items become their joined `${key}: ${value}` entry lines
(`Object.entries(null)` throws — `none`), other items pass through string
conversion by the outer join. -/
def toolArrayItem (item : JSValue) : Option String :=
  if typeofIsObject item then
    (jsEntries item).map
      (fun es => String.intercalate "\n" (es.map (fun kv => kv.1 ++ ": " ++ jsDisplay kv.2)))
  else some (jsDisplay item)

/-- The `resultContent` string of the generic tool-result branch; `none`
models a thrown `TypeError`. -/
def toolResultContent : JSValue → Option String
  | JSValue.array xs => (xs.mapM toolArrayItem).map (String.intercalate "\n\n")
  | JSValue.object fs =>
    some (String.intercalate "\n" (fs.map (fun kv => entryLine kv.1 kv.2)))
  | v => some (jsDisplay v)

/-- `handleToolResult(data)`: guarded by truthy `data.tool_name` and
`data.result`; `search_web` / `search_arxiv` results are normalized into
reference cards, any other tool renders an opaque `.tool-result-card`
(content truncated at 1000) — clearing the reference area first when it
holds no tool card yet.  `none` models an exception escaping to the
dispatcher catch. -/
def handleToolResult (d : JSValue) (st : AppState) : Option AppState :=
  if jsTruthyOpt (getField d "tool_name") && jsTruthyOpt (getField d "result") then
    match getStr d "tool_name" with
    | some "search_web" => some (handleSearchResults ((getField d "result").getD JSValue.null) st)
    | some "search_arxiv" =>
      some (handleArxivResults ((getField d "result").getD JSValue.null) st)
    | _ =>
      match toolResultContent ((getField d "result").getD JSValue.null) with
      | none => none
      | some rc =>
        let card := RefBlock.toolCard (jsTemplate (getField d "tool_name"))
          (truncateContent rc 1000)
          (if jsTruthyOpt (getField d "message") then some (jsTemplate (getField d "message"))
           else none)
        let base := if refHasToolCard st.refBlocks then st.refBlocks else []
        some { st with refBlocks := base ++ [card], refVisible := true }
  else some st

/-- `updateSearchResult(data)` of the current client (lines 933-955 of
`main.js`): guarded by truthy `data.result` and `data.result.link`; the
first card whose anchor `href` strictly equals the link gets its
`.paper-content` replaced by the truncated new content in place; otherwise
the single result is added through `updateSearchResults` (which clears the
area first).  The current client never routes any event here — its
dispatcher does not subscribe to `search_result_update`. -/
def updateSearchResult (d : JSValue) (st : AppState) : AppState :=
  match getField d "result" with
  | some r =>
    if jsTruthy r && jsTruthyOpt (getField r "link") then
      let link := (getField r "link").getD JSValue.null
      if hasCardFor st.refBlocks link then
        let newBlocks :=
          updateFirstCard st.refBlocks link
            (truncateContent (jsStrOrEmpty (getField r "content")) 300)
        { st with refBlocks := newBlocks }
      else
        updateSearchResults
          (JSValue.object
            [("status", JSValue.string "success"), ("results", JSValue.array [r]),
             ("isInitialResults", JSValue.boolean false)]) st
    else st
  | none => st

/-- Payload of the `showError` issued when a dispatcher catch block fires:
`error.message` is supplied by the JS engine, its exact text is
environment-dependent and no claim observes it. -/
def jsEngineMessage : String := "error message"

/-- The generic catch payload of the dispatchers. -/
def catchErrorPayload : JSValue :=
  JSValue.object
    [("error", JSValue.string "处理服务器响应时发生错误"),
     ("details", JSValue.string jsEngineMessage)]

/-- `handleEventData(event)` of the current client (lines 590-645 of
`main.js`): empty or whitespace data is dropped, a `JSON.parse` failure is
caught and dropped, a falsy or non-object parse is dropped; then the tag
switch fans out (the `complete` tag and unknown tags hit the logging
default).  A handler exception is caught and surfaced via `showError`. -/
def handleEventData (etype : String) (edata : String) (st : AppState) : AppState :=
  if jsTrim edata = "" then st
  else
    match parseJson edata with
    | none => st
    | some v =>
      if jsObjectLike v then
        match etype with
        | "status" => updateStatus v st
        | "tool_result" =>
          (match handleToolResult v st with
           | some st2 => st2
           | none => showError catchErrorPayload st)
        | "answer" => updateAnswer v st
        | "error" => showError v st
        | _ => st
      else st

/-- The per-event listener wrapper of the current client: a frame on a
closed source is ignored, falsy `event.data` is ignored, otherwise
`handleEventData` runs and a `complete` frame closes the source. -/
def processFrame (etype edata : String) (conn : Conn) (st : AppState) : Conn × AppState :=
  if conn.closed then (conn, st)
  else if edata = "" then (conn, st)
  else
    let st2 := handleEventData etype edata st
    (if etype = "complete" then { closed := true } else conn, st2)

/-- `handleSendMessage()` of the current client: a whitespace-only input is
a complete no-op (no request, no new connection); otherwise the answer
area is rebuilt (replaced entirely when a loading indicator or the
placeholder is present, appended to otherwise), a fresh loading indicator
is appended, `currentAnswer` is reset, and a new request and `EventSource`
are created.  The `request_id` (`Date.now().toString()` in the source) and
the checked tools are environment inputs.  The previous `EventSource`, if
any, is a local of the previous invocation: nothing here closes it. -/
def handleSendMessage (inputValue requestId : String) (selectedTools : List String)
    (st : AppState) : AppState × Option OutRequest × Option Conn :=
  let message := jsTrim inputValue
  if message = "" then (st, none, none)
  else
    let blocks1 :=
      if hasLoading st.answerBlocks || hasPlaceholder st.answerBlocks then
        [Block.userMsg message]
      else st.answerBlocks ++ [Block.userMsg message]
    ({ st with answerBlocks := blocks1 ++ [Block.loading "思考中..."], currentAnswer := "" },
     some { message := message, requestId := requestId, selectedTools := selectedTools },
     some { closed := false })

/-- `eventSource.onerror` of the current client: reconnecting logs only; a
closed source surfaces the generic connection-lost error only when no
answer content has been received (`!this.currentAnswer`); any other state
surfaces a generic error and closes the source.  `showError` receives a
plain string here, whose `error` and `details` properties are undefined. -/
def onerror (rs : ReadyState) (st : AppState) (conn : Conn) : AppState × Conn :=
  match rs with
  | ReadyState.connecting => (st, conn)
  | ReadyState.closedRS =>
    if st.currentAnswer = "" then (showError (JSValue.string "连接已断开，请重试") st, conn)
    else (st, conn)
  | ReadyState.openRS => (showError (JSValue.string "连接出错，请重试") st, { closed := true })

/-! ### The first `main.js` revision (lines 1-425)

It shares `handleSendMessage`, the listener shape, `updateAnswer`,
`updateSearchResults`, `showError` and `onerror` with the current client
(textually identical there) but has its own `updateStatus`, stubs
`updateSearchResult`, and subscribes to
`search_results` / `search_result_update` instead of `tool_result`. -/

namespace Rev1

/-- `updateStatus(data)` of the first revision: text-only phase updates (no
progress bar, no status-element creation). -/
def updateStatus (d : JSValue) (st : AppState) : AppState :=
  match getStr d "status" with
  | some "searching" =>
    { st with refBlocks := [RefBlock.loading "搜索中..."], refVisible := true,
              answerBlocks := setFirstLoadingText st.answerBlocks "搜索中..." }
  | some "parsing" =>
    { st with refBlocks := refSetFirstLoadingText st.refBlocks "网页解读中...",
              answerBlocks := setFirstLoadingText st.answerBlocks "网页解读中..." }
  | some "parsing_completed" =>
    { st with refBlocks := refSetFirstLoadingText st.refBlocks "解读结束",
              answerBlocks := setFirstLoadingText st.answerBlocks "解读结束" }
  | some "generating" =>
    { st with refBlocks := refRemoveFirstLoading st.refBlocks,
              answerBlocks :=
                removeFirstLoading st.answerBlocks ++ [Block.loading "生成回答中..."] }
  | some "completed" => st
  | _ => st

/-- `updateSearchResult(data)` of the first revision: an explicit stub
(`// 不处理网页爬取更新  return;`). -/
def updateSearchResult (_d : JSValue) (st : AppState) : AppState := st

/-- `handleEventData(event)` of the first revision: the same three guards
as the current client, then its own tag switch (`search_results` and
`search_result_update` behind an `if (true)`, the latter a stub; no
`tool_result`). -/
def handleEventData (etype : String) (edata : String) (st : AppState) : AppState :=
  if jsTrim edata = "" then st
  else
    match parseJson edata with
    | none => st
    | some v =>
      if jsObjectLike v then
        match etype with
        | "status" => updateStatus v st
        | "search_results" => updateSearchResults v st
        | "search_result_update" => updateSearchResult v st
        | "answer" => updateAnswer v st
        | "error" => showError v st
        | _ => st
      else st

end Rev1

/-! ### The oldest client revision (`src/unnamed/part_002`)

Its dispatcher has no payload guards: `JSON.parse` runs inside a `try` and
a failure is caught and surfaced through `showError`; a `null` payload
makes the first property access of the reached handler throw a
`TypeError`, equally caught and surfaced (the `search_result_update` stub
touches nothing and survives).  Search handling is gated on the page's
`useSearch` toggle, passed here as an explicit argument. -/

namespace Legacy

/-- `updateStatus(data)` of the oldest revision: like `Rev1.updateStatus`
but gated on the search toggle for the reference area, and `searching`
inserts the loading notice before the first card instead of clearing. -/
def updateStatus (toggle : Bool) (d : JSValue) (st : AppState) : AppState :=
  match getStr d "status" with
  | some "searching" =>
    { st with refBlocks :=
                if toggle then RefBlock.loading "搜索中..." :: st.refBlocks else st.refBlocks,
              answerBlocks := setFirstLoadingText st.answerBlocks "搜索中..." }
  | some "parsing" =>
    { st with refBlocks :=
                if toggle then refSetFirstLoadingText st.refBlocks "网页解读中..."
                else st.refBlocks,
              answerBlocks := setFirstLoadingText st.answerBlocks "网页解读中..." }
  | some "parsing_completed" =>
    { st with refBlocks :=
                if toggle then refSetFirstLoadingText st.refBlocks "解读结束" else st.refBlocks,
              answerBlocks := setFirstLoadingText st.answerBlocks "解读结束" }
  | some "generating" =>
    { st with refBlocks :=
                if toggle then refRemoveFirstLoading st.refBlocks else st.refBlocks,
              answerBlocks :=
                removeFirstLoading st.answerBlocks ++ [Block.loading "生成回答中..."] }
  | some "completed" => st
  | _ => st

/-- A result card of the oldest revision: an answer-box result renders a
span instead of an anchor, the snippet is `result.content || '无内容'`
without truncation, and there is no date line. -/
def mkCard (r : JSValue) : RefBlock :=
  RefBlock.card
    { anchorHref :=
        if jsTruthyOpt (getField r "isAnswerBox") then none
        else some (jsTemplate (getField r "link")),
      title :=
        if jsTruthyOpt (getField r "title") then jsTemplate (getField r "title") else "无标题",
      authorsLine := none,
      paperContent :=
        if jsTruthyOpt (getField r "content") then jsTemplate (getField r "content")
        else "无内容",
      dateLine := none }

/-- `updateSearchResults(data)` of the oldest revision: gated on the
toggle; the error and no-results branches replace the reference area, but
the success branch appends its cards without clearing first. -/
def updateSearchResults (toggle : Bool) (d : JSValue) (st : AppState) : AppState :=
  if !toggle then st
  else if getStr d "status" = some "error" then
    { st with refBlocks := [mkSearchErrBlock d], refVisible := false }
  else
    let results : List JSValue :=
      match getField d "results" with
      | some (JSValue.array xs) => xs
      | _ => []
    if results.isEmpty then
      { st with refBlocks := [RefBlock.noResults "暂无相关搜索结果"], refVisible := false }
    else
      { st with refVisible := true, refBlocks := st.refBlocks ++ results.map mkCard }

/-- `handleEventData(event)` of the oldest revision: `JSON.parse` runs
unguarded inside the `try`; a parse failure, or the `TypeError` thrown by
the first property access of a handler on a `null` payload, is caught and
surfaced via `showError` (the `search_result_update` stub and the logging
default never dereference the payload and stay silent). -/
def handleEventData (toggle : Bool) (etype : String) (edata : String) (st : AppState) :
    AppState :=
  match parseJson edata with
  | none => showError catchErrorPayload st
  | some JSValue.null =>
    (match etype with
     | "status" => showError catchErrorPayload st
     | "search_results" => if toggle then showError catchErrorPayload st else st
     | "search_result_update" => st
     | "answer" => showError catchErrorPayload st
     | "error" => showError catchErrorPayload st
     | _ => st)
  | some v =>
    match etype with
    | "status" => updateStatus toggle v st
    | "search_results" => if toggle then updateSearchResults toggle v st else st
    | "search_result_update" => st
    | "answer" => updateAnswer v st
    | "error" => showError v st
    | _ => st

/-- `eventSource.onerror` of the oldest revision: a closed source only
logs — no error is surfaced, whatever the answer buffer holds; any other
ready state surfaces a generic error and closes. -/
def onerror (rs : ReadyState) (st : AppState) (conn : Conn) : AppState × Conn :=
  match rs with
  | ReadyState.closedRS => (st, conn)
  | _ => (showError (JSValue.string "连接出错，请重试") st, { closed := true })

end Legacy

/-! ### Concrete scenario material for the theorems -/

/-- Concatenation of answer fragments in arrival order. -/
def concatFragments : List String → String
  | [] => ""
  | f :: fs => f ++ concatFragments fs

/-- An `answer` payload carrying one content fragment. -/
def mkAnswerObj (f : String) : JSValue :=
  JSValue.object [("content", JSValue.string f)]

/-- A `status` payload of phase `fetch_progress` with a numeric progress. -/
def mkFetchProgress (q : ℚ) (m : String) : JSValue :=
  JSValue.object
    [("status", JSValue.string "fetch_progress"), ("progress", JSValue.number q),
     ("message", JSValue.string m)]

/-- A `search_result_update` payload for one link/content pair. -/
def mkUpdPayload (l c : String) : JSValue :=
  JSValue.object
    [("result", JSValue.object [("link", JSValue.string l), ("content", JSValue.string c)])]

/-- A payload the dispatcher guards reject: empty or whitespace,
unparseable, or parsed to a falsy or non-object value. -/
def isMalformed (s : String) : Bool :=
  (jsTrim s = "") ||
    (match parseJson s with
     | none => true
     | some v => !jsObjectLike v)

/-- The page state right after a question was submitted: the user message
and the thinking indicator, an empty answer buffer. -/
def stStart : AppState :=
  { currentAnswer := "", answerBlocks := [Block.userMsg "q", Block.loading "思考中..."],
    refBlocks := [], refVisible := false, progressVisible := false, progressPct := none }

/-- The same state after some answer content has been received. -/
def stPartial : AppState :=
  { currentAnswer := "部分回答",
    answerBlocks := [Block.userMsg "q", Block.aiMessage "部分回答"],
    refBlocks := [], refVisible := false, progressVisible := false, progressPct := none }

/-- The untouched page (placeholder only). -/
def stFresh : AppState :=
  { currentAnswer := "", answerBlocks := [Block.placeholder], refBlocks := [],
    refVisible := false, progressVisible := false, progressPct := none }

/-- A reference card for link `"a"` holding content `"old"`. -/
def cardA : Card :=
  { anchorHref := some "a", title := "T1", authorsLine := none, paperContent := "old",
    dateLine := none }

/-- A state whose reference store already holds the entry for `"a"`. -/
def stCardA : AppState :=
  { currentAnswer := "", answerBlocks := [], refBlocks := [RefBlock.card cardA],
    refVisible := true, progressVisible := false, progressPct := none }

/-- Raw frame payloads used by the concrete runs. -/
def frameCompleted : String := "\x7b\"status\":\"completed\"\x7d"

/-- An `answer` frame carrying the fragment `"x"`. -/
def frameAnswerX : String := "\x7b\"content\":\"x\"\x7d"

/-- An `answer` frame carrying the fragment `"a"`. -/
def frameAnswerA : String := "\x7b\"content\":\"a\"\x7d"

/-- A `status` frame of phase `searching`. -/
def frameSearching : String := "\x7b\"status\":\"searching\"\x7d"

/-- An `error` frame carrying `error: "timeout"`. -/
def frameErrTimeout : String := "\x7b\"error\":\"timeout\"\x7d"

/-- A `search_result_update` frame for link `"a"` with content `"new"`. -/
def frameUpdateA : String := "\x7b\"result\":\x7b\"link\":\"a\",\"content\":\"new\"\x7d\x7d"

/-- A `fetch_progress` frame whose progress value is 2 (200 percent). -/
def frameProgress2 : String :=
  "\x7b\"status\":\"fetch_progress\",\"progress\":2,\"message\":\"m\"\x7d"

/-- The connection and page state after the current client processes a
`status{completed}` frame from `stStart` on an open connection. -/
def afterStatusCompleted : Conn × AppState :=
  processFrame "status" frameCompleted { closed := false } stStart

/-- One more `answer` frame processed after `afterStatusCompleted` on the
same connection. -/
def afterStatusCompletedThenAnswer : Conn × AppState :=
  processFrame "answer" frameAnswerX afterStatusCompleted.1 afterStatusCompleted.2

/-- Scenario B of the specification: `Status(searching)` then
`Error(timeout)` processed by the current dispatcher from `stStart`. -/
def stAfterError : AppState :=
  handleEventData "error" frameErrTimeout (handleEventData "status" frameSearching stStart)

/-- Scenario B continued: a subsequent `Answer("x")`. -/
def stAfterErrorThenAnswer : AppState :=
  handleEventData "answer" frameAnswerX stAfterError

/-- The supersession run: a first question is sent from the fresh page, its
session receives the fragment `"a"`, then a second question supersedes it
(the first session's `EventSource` is a local variable of the previous
`handleSendMessage` invocation — nothing closes it, and no request-id
bookkeeping exists). -/
def sendOne : AppState × Option OutRequest × Option Conn :=
  handleSendMessage "第一个问题" "1001" [] stFresh

/-- Session one has received the fragment `"a"`. -/
def stOneAnswered : AppState :=
  (processFrame "answer" frameAnswerA { closed := false } sendOne.1).2

/-- The second question supersedes session one. -/
def sendTwo : AppState × Option OutRequest × Option Conn :=
  handleSendMessage "第二个问题" "1002" [] stOneAnswered

/-- An orphan frame of superseded session one (its connection is still
open) processed against the active state. -/
def afterOrphanFrame : Conn × AppState :=
  processFrame "answer" frameAnswerX { closed := false } sendTwo.1

/-! ### Helper lemmas -/


theorem showError_currentAnswer (d : JSValue) (st : AppState) :
    (showError d st).currentAnswer = st.currentAnswer := rfl

theorem showError_refBlocks (d : JSValue) (st : AppState) :
    (showError d st).refBlocks = st.refBlocks := rfl

theorem updateStatus_currentAnswer (d : JSValue) (st : AppState) :
    (updateStatus d st).currentAnswer = st.currentAnswer := by
  unfold updateStatus
  split <;> split <;> rfl

theorem handleSearchResults_currentAnswer (r : JSValue) (st : AppState) :
    (handleSearchResults r st).currentAnswer = st.currentAnswer := by
  unfold handleSearchResults
  split <;> rfl

theorem handleArxivResults_currentAnswer (r : JSValue) (st : AppState) :
    (handleArxivResults r st).currentAnswer = st.currentAnswer := by
  unfold handleArxivResults
  split <;> rfl

theorem updateSearchResults_currentAnswer (d : JSValue) (st : AppState) :
    (updateSearchResults d st).currentAnswer = st.currentAnswer := by
  unfold updateSearchResults
  split
  · rfl
  · dsimp only
    split <;> rfl

theorem handleToolResult_currentAnswer (d : JSValue) (st st2 : AppState)
    (h : handleToolResult d st = some st2) : st2.currentAnswer = st.currentAnswer := by
  unfold handleToolResult at h
  split at h
  · split at h
    · injection h with h2
      subst h2
      exact handleSearchResults_currentAnswer _ _
    · injection h with h2
      subst h2
      exact handleArxivResults_currentAnswer _ _
    · split at h
      · exact absurd h (by simp)
      · injection h with h2
        subst h2
        rfl
  · injection h with h2
    subst h2
    rfl

theorem updateAnswer_exists_append (d : JSValue) (st : AppState) :
    ∃ t, (updateAnswer d st).currentAnswer = st.currentAnswer ++ t := by
  unfold updateAnswer
  split
  · exact ⟨"", by rw [String.append_empty]; exact showError_currentAnswer _ _⟩
  · split <;> (dsimp only; split)
    · exact ⟨jsTemplate (getField d "content"), rfl⟩
    · exact ⟨"", by rw [String.append_empty]⟩
    · exact ⟨jsTemplate (getField d "content"), rfl⟩
    · exact ⟨"", by rw [String.append_empty]⟩

theorem updateAnswer_mkAnswerObj (f : String) (st : AppState) :
    (updateAnswer (mkAnswerObj f) st).currentAnswer = st.currentAnswer ++ f := by
  by_cases hf : f = ""
  · subst hf
    unfold updateAnswer mkAnswerObj
    simp [getStr, getField, lookupField, jsTruthyOpt, jsTruthy]
  · unfold updateAnswer mkAnswerObj
    simp [getStr, getField, lookupField, jsTruthyOpt, jsTruthy, hf, jsTemplate, jsDisplay]

theorem handleEventData_exists_append (etype edata : String) (st : AppState) :
    ∃ t, (handleEventData etype edata st).currentAnswer = st.currentAnswer ++ t := by
  unfold handleEventData
  split
  · exact ⟨"", by rw [String.append_empty]⟩
  · split
    · exact ⟨"", by rw [String.append_empty]⟩
    · split
      · split
        · exact ⟨"", by rw [String.append_empty]; exact updateStatus_currentAnswer _ _⟩
        · split
          · next st2 h =>
            exact ⟨"", by rw [String.append_empty]; exact handleToolResult_currentAnswer _ _ _ h⟩
          · exact ⟨"", by rw [String.append_empty]; exact showError_currentAnswer _ _⟩
        · exact updateAnswer_exists_append _ _
        · exact ⟨"", by rw [String.append_empty]; exact showError_currentAnswer _ _⟩
        · exact ⟨"", by rw [String.append_empty]⟩
      · exact ⟨"", by rw [String.append_empty]⟩

theorem handleEventData_complete (edata : String) (st : AppState) :
    handleEventData "complete" edata st = st := by
  unfold handleEventData
  split
  · rfl
  · split
    · rfl
    · split <;> rfl

theorem handleEventData_sru (edata : String) (st : AppState) :
    handleEventData "search_result_update" edata st = st := by
  unfold handleEventData
  split
  · rfl
  · split
    · rfl
    · split <;> rfl

theorem removeFirstLoading_errorCount (bs : List Block) :
    errorCount (removeFirstLoading bs) = errorCount bs := by
  induction bs with
  | nil => rfl
  | cons b bs ih =>
    cases b <;> simp [removeFirstLoading, errorCount, ih]

theorem placeErrorBlock_errorCount (bs : List Block) (t : String) (det : Option String) :
    errorCount (placeErrorBlock bs (Block.errorBlock t det)) = errorCount bs + 1 := by
  induction bs with
  | nil => rfl
  | cons b bs ih =>
    cases bs with
    | nil => cases b <;> rfl
    | cons b2 bs2 => cases b <;> simp [placeErrorBlock, errorCount, ih]

theorem showError_errorCount (d : JSValue) (st : AppState) :
    errorCount (showError d st).answerBlocks = errorCount st.answerBlocks + 1 := by
  show errorCount (placeErrorBlock (removeFirstLoading st.answerBlocks) _) = _
  rw [placeErrorBlock_errorCount, removeFirstLoading_errorCount]

theorem jsStrOrEmpty_string (s : String) :
    jsStrOrEmpty (some (JSValue.string s)) = s := by
  by_cases hs : s = "" <;> simp [jsStrOrEmpty, jsTruthyOpt, jsTruthy, jsTemplate, jsDisplay, hs]

theorem hasCardFor_append (pre post : List RefBlock) (c : Card) (l : String)
    (hc : cardMatches (RefBlock.card c) (JSValue.string l) = true) :
    hasCardFor (pre ++ RefBlock.card c :: post) (JSValue.string l) = true := by
  simp [hasCardFor]
  exact Or.inr (Or.inl hc)

theorem updateFirstCard_append (pre post : List RefBlock) (c : Card) (l : JSValue) (txt : String)
    (hpre : ∀ b ∈ pre, cardMatches b l = false)
    (hc : cardMatches (RefBlock.card c) l = true) :
    updateFirstCard (pre ++ RefBlock.card c :: post) l txt =
      pre ++ RefBlock.card { c with paperContent := txt } :: post := by
  induction pre with
  | nil => simp [updateFirstCard, hc]
  | cons b bs ih =>
    have hb : cardMatches b l = false := hpre b (by simp)
    simp only [List.cons_append, updateFirstCard, hb, Bool.false_eq_true, if_false,
      List.cons.injEq, true_and]
    exact ih (fun x hx => hpre x (by simp [hx]))

theorem updateSearchResult_found (pre post : List RefBlock) (c : Card) (l newC : String)
    (st : AppState) (hl : l ≠ "") (hc : c.anchorHref = some l)
    (hpre : ∀ b ∈ pre, cardMatches b (JSValue.string l) = false)
    (hst : st.refBlocks = pre ++ RefBlock.card c :: post) :
    updateSearchResult (mkUpdPayload l newC) st =
      { st with refBlocks :=
          pre ++ RefBlock.card { c with paperContent := truncateContent newC 300 } :: post } := by
  have hmatch : cardMatches (RefBlock.card c) (JSValue.string l) = true := by
    simp [cardMatches, hc]
  unfold updateSearchResult mkUpdPayload
  have h3 : jsTruthyOpt (some (JSValue.string l)) = true := by
    simp [jsTruthyOpt, jsTruthy, hl]
  simp only [getField, lookupField, if_pos rfl, jsTruthy, h3, Bool.and_self,
    if_true, Option.getD_some]
  rw [hst]
  simp only [hasCardFor_append _ _ _ _ hmatch, if_true]
  rw [updateFirstCard_append _ _ _ _ _ hpre hmatch]
  simp [jsStrOrEmpty_string, hst]

theorem processFrame_closed (etype edata : String) (st : AppState) :
    processFrame etype edata { closed := true } st = ({ closed := true }, st) := rfl

theorem processFrame_open (etype edata : String) (st : AppState) (h : edata ≠ "") :
    (processFrame etype edata { closed := false } st).2 = handleEventData etype edata st := by
  unfold processFrame
  simp [h]

theorem processFrame_complete_closes (fdata : String) (st : AppState) (h : fdata ≠ "") :
    processFrame "complete" fdata { closed := false } st = ({ closed := true }, st) := by
  unfold processFrame
  simp [h, handleEventData_complete]

/-! ### The claims -/


/-- An equation for `updateStatus` on a `fetch_progress` payload with a
numeric progress and string message: the bar records
`Math.round(progress * 100)` verbatim when the progress is truthy and is
left untouched when it is `0`. -/
theorem updateStatus_fetch_progress (q : ℚ) (m : String) (st : AppState) :
    updateStatus (mkFetchProgress q m) st =
      { st with
        progressPct := if q = 0 then st.progressPct else some (jsRound (ratMul100 q)),
        refBlocks := refSetFirstLoadingText st.refBlocks m,
        answerBlocks := setFirstLoadingText
          (if hasLoading st.answerBlocks then st.answerBlocks
           else st.answerBlocks ++ [Block.loading ""]) m } := by
  unfold updateStatus
  by_cases hq : q = 0 <;>
    simp [mkFetchProgress, getStr, getField, lookupField, jsTruthy, jsToNumber,
      jsTextContent, jsDisplay, hq]

/-- C1: for every sequence of answer events carrying content fragments
processed in arrival order, `currentAnswer` accumulates exactly their
concatenation; every dispatched frame at most appends to the buffer (so no
event ever resets or rewrites it); submitting a non-blank user message
resets the buffer to empty (the start of a new session). -/
theorem c1_answer_accumulation :
    (∀ (fs : List String) (st : AppState),
       (fs.foldl (fun s f => updateAnswer (mkAnswerObj f) s) st).currentAnswer
         = st.currentAnswer ++ concatFragments fs) ∧
    (∀ (etype edata : String) (st : AppState),
       ∃ t, (handleEventData etype edata st).currentAnswer = st.currentAnswer ++ t) ∧
    (∀ (input rid : String) (tools : List String) (st : AppState),
       jsTrim input ≠ "" → (handleSendMessage input rid tools st).1.currentAnswer = "") := by
  refine ⟨?_, handleEventData_exists_append, ?_⟩
  · intro fs
    induction fs with
    | nil =>
      intro st
      simp [concatFragments]
    | cons f fs ih =>
      intro st
      simp only [List.foldl_cons, concatFragments]
      rw [ih, updateAnswer_mkAnswerObj, String.append_assoc]
  · intro input rid tools st h
    unfold handleSendMessage
    rw [if_neg h]

/-- Witness for `c1_answer_accumulation` at scenario A's fragments and at a
concrete non-blank submission. -/
theorem c1_answer_accumulation_witness :
    ((["He", "llo"].foldl (fun s f => updateAnswer (mkAnswerObj f) s) stStart).currentAnswer
       = stStart.currentAnswer ++ concatFragments ["He", "llo"]) ∧
    (handleSendMessage "新问题" "7" [] stPartial).1.currentAnswer = "" := by
  refine ⟨c1_answer_accumulation.1 ["He", "llo"] stStart, ?_⟩
  exact c1_answer_accumulation.2.2 "新问题" "7" [] stPartial (by decide)

/-- C2 counterexample: a `status{completed}` frame is not terminal in the
current client.  From the post-submission state, processing it leaves the
connection open and the buffer empty, and a subsequent `answer` frame on
the same connection still appends `"x"` — the claim that no subsequent
event changes any state after `status{completed}` fails here. -/
theorem c2_status_completed_not_terminal :
    afterStatusCompleted.1.closed = false ∧
    afterStatusCompleted.2.currentAnswer = "" ∧
    afterStatusCompletedThenAnswer.2.currentAnswer = "x" := ⟨rfl, rfl, rfl⟩

/-- C2 amended: a `complete` frame is terminal — processing it closes the
connection without touching the page state, and every frame arriving on a
closed connection (whatever its tag or payload, well-formed or not) is a
complete no-op.  A `status{completed}` frame has no such effect. -/
theorem c2_complete_terminal :
    (∀ (etype edata : String) (st : AppState),
       processFrame etype edata { closed := true } st = ({ closed := true }, st)) ∧
    (∀ (fdata : String) (st : AppState), fdata ≠ "" →
       processFrame "complete" fdata { closed := false } st = ({ closed := true }, st)) :=
  ⟨processFrame_closed, fun fdata st h => processFrame_complete_closes fdata st h⟩

/-- Witness for `c2_complete_terminal` at a concrete `complete` frame. -/
theorem c2_complete_terminal_witness :
    processFrame "complete" "\x7b\x7d" { closed := false } stStart
      = ({ closed := true }, stStart) :=
  c2_complete_terminal.2 "\x7b\x7d" stStart (by decide)

/-- C3 counterexample: an orphan frame of a superseded session still
mutates the active state.  Session one receives `"a"`; submitting the
second question resets the buffer and opens a fresh connection, but the
first session's connection is a local of the previous invocation and stays
open; its `answer("x")` frame is then processed against the shared state,
setting the buffer to `"x"` — not the zero observable change the claim
demands, and no request-id is consulted anywhere. -/
theorem c3_superseded_event_mutates_state :
    stOneAnswered.currentAnswer = "a" ∧
    sendTwo.1.currentAnswer = "" ∧
    sendTwo.2.2 = some { closed := false } ∧
    afterOrphanFrame.2.currentAnswer = "x" := ⟨rfl, rfl, rfl, rfl⟩

/-- C3 amended: the only discard criterion is the per-connection
`readyState` check — a frame on a closed connection is dropped, a
non-empty frame on any open connection is fully processed against the
shared state (no request-id or session-id comparison exists), and
submitting a new message merely opens a fresh connection without closing
the superseded one. -/
theorem c3_no_session_id_filter :
    (∀ (etype edata : String) (st : AppState),
       processFrame etype edata { closed := true } st = ({ closed := true }, st)) ∧
    (∀ (etype edata : String) (st : AppState), edata ≠ "" →
       (processFrame etype edata { closed := false } st).2 = handleEventData etype edata st) ∧
    (∀ (input rid : String) (tools : List String) (st : AppState), jsTrim input ≠ "" →
       (handleSendMessage input rid tools st).2.2 = some { closed := false }) := by
  refine ⟨processFrame_closed, processFrame_open, ?_⟩
  intro input rid tools st h
  unfold handleSendMessage
  rw [if_neg h]

/-- Witness for `c3_no_session_id_filter` at concrete frames. -/
theorem c3_no_session_id_filter_witness :
    (processFrame "answer" frameAnswerX { closed := false } stStart).2
      = handleEventData "answer" frameAnswerX stStart ∧
    (handleSendMessage "问题" "3" [] stFresh).2.2 = some { closed := false } := by
  refine ⟨c3_no_session_id_filter.2.1 "answer" frameAnswerX stStart (by decide), ?_⟩
  exact c3_no_session_id_filter.2.2 "问题" "3" [] stFresh (by decide)

/-- C4 counterexample: the oldest revision's dispatcher
(`src/unnamed/part_002`, `handleEventData`) does change state on the
malformed payload `"{"`: `JSON.parse` throws, the catch surfaces an error
block — one more `.error` element — so "no state change, no error
surfaced" fails on that dispatcher. -/
theorem c4_legacy_dispatcher_surfaces_error :
    Legacy.handleEventData true "status" "\x7b" stStart ≠ stStart ∧
    errorCount (Legacy.handleEventData true "status" "\x7b" stStart).answerBlocks
      = errorCount stStart.answerBlocks + 1 := by
  refine ⟨by decide, rfl⟩

/-- C4 amended: in both `main.js` dispatchers every malformed payload —
empty or whitespace, unparseable, or parsing to a falsy or non-object
value — is dropped with no state change (and as total functions they let
no exception escape); the four payloads named by the specification are all
malformed in this sense.  The legacy `part_002` dispatcher instead
surfaces an error block for an unparseable payload. -/
theorem c4_malformed_dropped_current :
    (∀ (etype s : String) (st : AppState), isMalformed s = true →
       handleEventData etype s st = st ∧ Rev1.handleEventData etype s st = st) ∧
    isMalformed "" = true ∧ isMalformed "\x7b" = true ∧
    isMalformed "null" = true ∧ isMalformed "42" = true := by
  refine ⟨?_, rfl, rfl, rfl, rfl⟩
  intro etype s st h
  by_cases h1 : jsTrim s = ""
  · exact ⟨by unfold handleEventData; rw [if_pos h1],
      by unfold Rev1.handleEventData; rw [if_pos h1]⟩
  · have h2 : (match parseJson s with
        | none => true
        | some v => !jsObjectLike v) = true := by
      simpa [isMalformed, h1] using h
    cases hp : parseJson s with
    | none =>
      refine ⟨?_, ?_⟩
      · unfold handleEventData
        rw [if_neg h1, hp]
      · unfold Rev1.handleEventData
        rw [if_neg h1, hp]
    | some v =>
      have hobj : jsObjectLike v = false := by
        rw [hp] at h2
        simpa using h2
      refine ⟨?_, ?_⟩
      · unfold handleEventData
        rw [if_neg h1, hp]
        simp [hobj]
      · unfold Rev1.handleEventData
        rw [if_neg h1, hp]
        simp [hobj]

/-- Witness for `c4_malformed_dropped_current` at the payload `"42"`. -/
theorem c4_malformed_dropped_current_witness :
    handleEventData "status" "42" stStart = stStart ∧
    Rev1.handleEventData "status" "42" stStart = stStart :=
  c4_malformed_dropped_current.1 "status" "42" stStart rfl

/-- C5 counterexample: scenario B run through the current dispatcher.
After `Status(searching)` then `Error({error:"timeout"})` the error is
surfaced and the buffer is empty, but the subsequent `Answer("x")` sets
the buffer to `"x"` — the claim that it leaves the answer buffer unchanged
fails (only the rendered blocks stay unchanged). -/
theorem c5_answer_after_error_appends :
    stAfterError.currentAnswer = "" ∧
    stAfterError.answerBlocks = [Block.userMsg "q", Block.errorBlock "timeout" none] ∧
    stAfterErrorThenAnswer.currentAnswer = "x" ∧
    stAfterErrorThenAnswer.answerBlocks = stAfterError.answerBlocks := ⟨rfl, rfl, rfl, rfl⟩

/-- C5 amended: an `error` event surfaces exactly one new error block
(replacing the trailing answer block when present) and touches neither the
buffer nor the reference store, but there is no Failed latch: a subsequent
answer fragment is still appended to the internal buffer. -/
theorem c5_error_no_latch :
    ∀ (d : JSValue) (st : AppState) (f : String),
      errorCount (showError d st).answerBlocks = errorCount st.answerBlocks + 1 ∧
      (showError d st).currentAnswer = st.currentAnswer ∧
      (showError d st).refBlocks = st.refBlocks ∧
      (updateAnswer (mkAnswerObj f) st).currentAnswer = st.currentAnswer ++ f :=
  fun d st f =>
    ⟨showError_errorCount d st, showError_currentAnswer d st, showError_refBlocks d st,
      updateAnswer_mkAnswerObj f st⟩

/-- C6 counterexample: a `search_result_update` event for an existing link
leaves the store entry untouched — the content stays `"old"`, not the
claimed `"new"` — because the current client does not subscribe to the
tag (its dispatcher ignores it) and the first revision routes it to an
explicit stub. -/
theorem c6_event_leaves_store_unchanged :
    handleEventData "search_result_update" frameUpdateA stCardA = stCardA ∧
    Rev1.handleEventData "search_result_update" frameUpdateA stCardA = stCardA ∧
    (handleEventData "search_result_update" frameUpdateA stCardA).refBlocks
      = [RefBlock.card cardA] ∧
    cardA.paperContent = "old" ∧
    (handleEventData "search_result_update" frameUpdateA stCardA).refBlocks
      ≠ [RefBlock.card { cardA with paperContent := "new" }] := by
  refine ⟨rfl, rfl, rfl, rfl, by decide⟩

/-- C6 amended: the dispatched event is a no-op in the current client, and
the (unreached) `updateSearchResult` function itself does perform the
claimed upsert: on a store holding one card for the link it replaces that
card's content in place — same position, still exactly one entry — and
applying the identical update twice equals applying it once. -/
theorem c6_upsert_in_place :
    (∀ (edata : String) (st : AppState),
       handleEventData "search_result_update" edata st = st) ∧
    (∀ (pre post : List RefBlock) (c : Card) (l newC : String) (st : AppState),
       l ≠ "" → c.anchorHref = some l →
       (∀ b ∈ pre, cardMatches b (JSValue.string l) = false) →
       st.refBlocks = pre ++ RefBlock.card c :: post →
       updateSearchResult (mkUpdPayload l newC) st =
         { st with refBlocks :=
             pre ++ RefBlock.card { c with paperContent := truncateContent newC 300 } :: post }) ∧
    (∀ (pre post : List RefBlock) (c : Card) (l newC : String) (st : AppState),
       l ≠ "" → c.anchorHref = some l →
       (∀ b ∈ pre, cardMatches b (JSValue.string l) = false) →
       st.refBlocks = pre ++ RefBlock.card c :: post →
       updateSearchResult (mkUpdPayload l newC) (updateSearchResult (mkUpdPayload l newC) st)
         = updateSearchResult (mkUpdPayload l newC) st) := by
  refine ⟨handleEventData_sru, updateSearchResult_found, ?_⟩
  intro pre post c l newC st hl hc hpre hst
  rw [updateSearchResult_found pre post c l newC st hl hc hpre hst]
  rw [updateSearchResult_found pre post { c with paperContent := truncateContent newC 300 }
    l newC _ hl hc hpre rfl]

/-- Witness for `c6_upsert_in_place`: scenario C — updating link `"a"`
from `"old"` to `"new"` on a store holding exactly that entry. -/
theorem c6_upsert_in_place_witness :
    updateSearchResult (mkUpdPayload "a" "new") stCardA =
      { stCardA with refBlocks := [RefBlock.card { cardA with paperContent := "new" }] } ∧
    updateSearchResult (mkUpdPayload "a" "new")
        (updateSearchResult (mkUpdPayload "a" "new") stCardA)
      = updateSearchResult (mkUpdPayload "a" "new") stCardA := by
  refine ⟨?_, ?_⟩
  · exact c6_upsert_in_place.2.1 [] [] cardA "a" "new" stCardA (by decide) rfl
      (by intro b hb; cases hb) rfl
  · exact c6_upsert_in_place.2.2 [] [] cardA "a" "new" stCardA (by decide) rfl
      (by intro b hb; cases hb) rfl

/-- C7 counterexample: a `fetch_progress` event with progress `2` records
200 percent, not the claimed clamp to 100 percent. -/
theorem c7_progress_not_clamped :
    (handleEventData "status" frameProgress2 stStart).progressPct = some 200 ∧
    (handleEventData "status" frameProgress2 stStart).progressPct ≠ some 100 :=
  ⟨rfl, by decide⟩

/-- C7 amended: a `fetch_progress` event with numeric progress `p ≠ 0`
records `Math.round(100 p)` verbatim — above 100 for `p > 1`, negative for
`p < 0` — while `p = 0` is falsy and leaves the previously recorded
progress untouched; the event changes neither the buffer, nor the
visibility of the references, nor the progress-bar visibility (the session
stays in its fetching phase, only the status texts take the message). -/
theorem c7_progress_verbatim :
    ∀ (q : ℚ) (m : String) (st : AppState),
      (q ≠ 0 → (updateStatus (mkFetchProgress q m) st).progressPct
         = some (jsRound (ratMul100 q))) ∧
      (q = 0 → (updateStatus (mkFetchProgress q m) st).progressPct = st.progressPct) ∧
      (updateStatus (mkFetchProgress q m) st).currentAnswer = st.currentAnswer ∧
      (updateStatus (mkFetchProgress q m) st).refVisible = st.refVisible ∧
      (updateStatus (mkFetchProgress q m) st).progressVisible = st.progressVisible := by
  intro q m st
  rw [updateStatus_fetch_progress]
  refine ⟨fun hq => ?_, fun hq => ?_, rfl, rfl, rfl⟩
  · simp [hq]
  · simp [hq]

/-- Witness for `c7_progress_verbatim` at progress `2` (recorded as 200)
and progress `0` (bar untouched). -/
theorem c7_progress_verbatim_witness :
    (updateStatus (mkFetchProgress 2 "m") stStart).progressPct = some 200 ∧
    (updateStatus (mkFetchProgress 0 "m") stStart).progressPct = stStart.progressPct := by
  constructor
  · have h := (c7_progress_verbatim 2 "m" stStart).1 (by norm_num)
    rw [h]
    decide
  · exact (c7_progress_verbatim 0 "m" stStart).2.1 rfl

/-- C8 counterexample: the oldest revision (`part_002`, `onerror`) stays
silent when the transport closes: with an empty buffer and no terminal
event it surfaces nothing at all — the claim's synthesized
connection-lost failure does not exist there. -/
theorem c8_legacy_silent_on_close :
    stStart.currentAnswer = "" ∧
    Legacy.onerror ReadyState.closedRS stStart { closed := false }
      = (stStart, { closed := false }) ∧
    errorCount stStart.answerBlocks = 0 := ⟨rfl, rfl, rfl⟩

/-- C8 amended (and the claim as stated, for `main.js`): when the
transport closes, the current client surfaces exactly one generic failure
block if and only if no answer content has been received; with a partial
answer present the state is completely untouched. -/
theorem c8_connection_lost_current :
    ∀ (st : AppState) (conn : Conn),
      (st.currentAnswer = "" →
        (onerror ReadyState.closedRS st conn).2 = conn ∧
        (onerror ReadyState.closedRS st conn).1.currentAnswer = "" ∧
        (onerror ReadyState.closedRS st conn).1.refBlocks = st.refBlocks ∧
        errorCount (onerror ReadyState.closedRS st conn).1.answerBlocks
          = errorCount st.answerBlocks + 1) ∧
      (st.currentAnswer ≠ "" → onerror ReadyState.closedRS st conn = (st, conn)) := by
  intro st conn
  constructor
  · intro h
    unfold onerror
    rw [if_pos h]
    exact ⟨rfl, by rw [showError_currentAnswer]; exact h, showError_refBlocks _ _,
      showError_errorCount _ _⟩
  · intro h
    unfold onerror
    rw [if_neg h]

/-- Witness for `c8_connection_lost_current`: empty buffer surfaces one
failure, partial answer is preserved untouched. -/
theorem c8_connection_lost_current_witness :
    errorCount (onerror ReadyState.closedRS stStart { closed := false }).1.answerBlocks
      = errorCount stStart.answerBlocks + 1 ∧
    onerror ReadyState.closedRS stPartial { closed := false }
      = (stPartial, { closed := false }) := by
  refine ⟨((c8_connection_lost_current stStart { closed := false }).1 rfl).2.2.2, ?_⟩
  exact (c8_connection_lost_current stPartial { closed := false }).2 (by decide)

/-- C9: a whitespace-only input makes `handleSendMessage` a complete
no-op — the state is returned unchanged, no request is built, no
connection is opened. -/
theorem c9_empty_input_noop :
    ∀ (input rid : String) (tools : List String) (st : AppState),
      jsTrim input = "" → handleSendMessage input rid tools st = (st, none, none) := by
  intro input rid tools st h
  unfold handleSendMessage
  rw [if_pos h]

/-- Witness for `c9_empty_input_noop` at three spaces. -/
theorem c9_empty_input_noop_witness :
    handleSendMessage "   " "9" [] stPartial = (stPartial, none, none) :=
  c9_empty_input_noop "   " "9" [] stPartial rfl

/-- C10: every answer payload that does not signal an error and whose
`content` is absent or falsy (so in particular the empty string) leaves
the buffer, the reference area and the progress bar unchanged but still
performs the first-answer transition: when a loading indicator is present
it is removed and a fresh empty answer block is appended; without one, the
answer area is untouched as well. -/
theorem c10_empty_answer_first_transition :
    ∀ (d : JSValue) (st : AppState),
      getStr d "status" ≠ some "error" →
      jsTruthyOpt (getField d "content") = false →
      (updateAnswer d st).currentAnswer = st.currentAnswer ∧
      (updateAnswer d st).answerBlocks =
        (if hasLoading st.answerBlocks then
           removeFirstLoading st.answerBlocks ++ [Block.aiMessage ""]
         else st.answerBlocks) ∧
      (updateAnswer d st).refBlocks = st.refBlocks ∧
      (updateAnswer d st).refVisible = st.refVisible ∧
      (updateAnswer d st).progressVisible = st.progressVisible ∧
      (updateAnswer d st).progressPct = st.progressPct := by
  intro d st h1 h2
  unfold updateAnswer
  rw [if_neg h1]
  simp [h2]

/-- Witness for `c10_empty_answer_first_transition` at payloads from the
claim's class: an object without a `content` field (and with an unrelated
field) and one with empty-string content. -/
theorem c10_empty_answer_first_transition_witness :
    (updateAnswer (JSValue.object [("foo", JSValue.number 1)]) stStart).currentAnswer
      = stStart.currentAnswer ∧
    (updateAnswer (mkAnswerObj "") stStart).answerBlocks =
      (if hasLoading stStart.answerBlocks then
         removeFirstLoading stStart.answerBlocks ++ [Block.aiMessage ""]
       else stStart.answerBlocks) := by
  constructor
  · exact (c10_empty_answer_first_transition (JSValue.object [("foo", JSValue.number 1)])
      stStart (by decide) rfl).1
  · exact (c10_empty_answer_first_transition (mkAnswerObj "") stStart (by decide) rfl).2.1

end ChatApp
